import Mathlib

/-!
Verification of the content cache and ingestion manager (`ContentService`,
`src/types/src/storage.ts`) of the joystream storage node.

The embedding models the manager's state as a record of
- the on-disk files (an association list from object identifier to byte size),
- the cache index (an association list from object identifier to a cache
  entry, owned by the external `StateCacheService` collaborator and modelled
  from the spec's collaborator contract),
- the running `contentSizeSum` counter and the fixed storage limit.

External collaborators (`StateCacheService`, `NetworkingService`, the
`FileType` sniffing library and the Node stream machinery) are not part of
the repository sources; they are modelled from the spec's interface
contracts as explicit parameters (snapshot fetch results, eviction-candidate
policy, sniffing results, bytes physically written).
-/

namespace ContentServiceModel

/-- Cache entry kept by the cache-index collaborator for one object:
a recorded committed size (if any), a detected content (MIME) type (if any)
and the pending-download flag. Modelled from the spec: the `StateCacheService`
source is not in the repository snapshot; the spec describes the entry as
"at minimum a pending-download flag, a detected content (MIME) type" plus
the committed size recorded by `markCommitted`/`newContent`. -/
structure CacheEntry where
  size : Option Nat
  mimeType : Option String
  pending : Bool
deriving Repr, DecidableEq

/-- State of the content service: on-disk files (identifier to byte size),
cache-index entries, the `contentSizeSum` counter, and the configured
storage limit (`config.limits.storage`). `contentSizeSum` is an `Int`
since it is a JavaScript number mutated by `+=` and `-=`. -/
structure ContentState where
  disk : List (String × Nat)
  index : List (String × CacheEntry)
  contentSizeSum : Int
  storageLimit : Int
deriving Repr, DecidableEq

/-- Getter `usedSpace`: returns `contentSizeSum`. -/
def usedSpace (st : ContentState) : Int := st.contentSizeSum

/-- Getter `freeSpace`: `config.limits.storage - contentSizeSum`. -/
def freeSpace (st : ContentState) : Int := st.storageLimit - st.contentSizeSum

/-- Source method `exists(objectId)`: `fs.existsSync(path(objectId))`. -/
def exists' (st : ContentState) (objectId : String) : Bool :=
  (st.disk.lookup objectId).isSome

/-- Source method `fileSize(objectId)`: `fs.statSync(path(objectId)).size`; `statSync`
throws when the file is absent, hence the `Option` result. -/
def fileSize (st : ContentState) (objectId : String) : Option Nat :=
  st.disk.lookup objectId

/-- Call `fs.unlinkSync(path(objectId))`: deletes the file; fails (throws) when
the file is absent. -/
def unlinkSync (disk : List (String × Nat)) (objectId : String) :
    Option (List (String × Nat)) :=
  if (disk.lookup objectId).isSome then
    some (disk.filter (fun p => p.1 != objectId))
  else
    none

/-- Writing a file on disk: `fs.createWriteStream` creates/truncates the
file at the object's path; the entry for `objectId` is replaced. -/
def setFile (disk : List (String × Nat)) (objectId : String) (size : Nat) :
    List (String × Nat) :=
  (objectId, size) :: disk.filter (fun p => p.1 != objectId)

/-- Collaborator call `stateCache.dropById(objectId)`. Modelled from the spec: the cache
index's `drop(identifier)` removes the object's index entry. -/
def dropById (index : List (String × CacheEntry)) (objectId : String) :
    List (String × CacheEntry) :=
  index.filter (fun p => p.1 != objectId)

/-- Collaborator call `stateCache.getCachedObjectsIds()`. Modelled from the spec: the cache
index's `listTrackedIds()` returns the identifiers it tracks. -/
def getCachedObjectsIds (index : List (String × CacheEntry)) : List String :=
  index.map (·.1)

/-- Collaborator call `stateCache.getContentMimeType(objectId)`. Modelled from the spec:
`getContentType(identifier) -> string | none`. -/
def getContentMimeType (index : List (String × CacheEntry)) (objectId : String) :
    Option String :=
  (index.lookup objectId).bind (·.mimeType)

/-- Collaborator call `stateCache.setContentMimeType(objectId, type)`. Modelled from the spec:
`setContentType(identifier, type)` records the detected type, creating the
entry when absent. -/
def setContentMimeType (index : List (String × CacheEntry)) (objectId : String)
    (mime : String) : List (String × CacheEntry) :=
  match index.lookup objectId with
  | some e => (objectId, { e with mimeType := some mime }) :: dropById index objectId
  | none =>
    (objectId, { size := none, mimeType := some mime, pending := false }) ::
      dropById index objectId

/-- Collaborator call `stateCache.dropPendingDownload(objectId)`. Modelled from the spec:
`dropPending(identifier)` clears the object's pending-download flag. -/
def dropPendingDownload (index : List (String × CacheEntry)) (objectId : String) :
    List (String × CacheEntry) :=
  index.map (fun p => if p.1 == objectId then (p.1, { p.2 with pending := false }) else p)

/-- Collaborator call `stateCache.newContent(objectId, expectedSize)`. Modelled from the spec:
`markCommitted(identifier, size)` records the object in the index with the
given size, creating the entry when absent. -/
def newContent (index : List (String × CacheEntry)) (objectId : String)
    (size : Nat) : List (String × CacheEntry) :=
  match index.lookup objectId with
  | some e => (objectId, { e with size := some size }) :: dropById index objectId
  | none =>
    (objectId, { size := some size, mimeType := none, pending := false }) ::
      dropById index objectId

/-- Constant `DEFAULT_CONTENT_TYPE`. -/
def DEFAULT_CONTENT_TYPE : String := "application/octet-stream"

/-- Source method `detectMimeType(objectId)`: `FileType.fromFile` is an external library,
modelled by its result `sniffResult` (`none` when detection is
inconclusive). The source returns `result?.mime || DEFAULT_CONTENT_TYPE`,
so an absent result, and also an empty `mime` string (JavaScript `||`
treats `""` as falsy), fall back to `DEFAULT_CONTENT_TYPE`. -/
def detectMimeType (sniffResult : Option String) : String :=
  match sniffResult with
  | some m => if m = "" then DEFAULT_CONTENT_TYPE else m
  | none => DEFAULT_CONTENT_TYPE

/-- Source method `drop(objectId, reason?)`: if the file exists, read its size, unlink it
and subtract that size from `contentSizeSum`; otherwise only log a warning.
In both branches `stateCache.dropById(objectId)` runs afterwards. -/
def drop (st : ContentState) (objectId : String) : ContentState :=
  let st1 :=
    if exists' st objectId then
      { st with
        disk := st.disk.filter (fun p => p.1 != objectId)
        contentSizeSum := st.contentSizeSum - ((fileSize st objectId).getD 0 : Int) }
    else st
  { st1 with index := dropById st1.index objectId }

/-- Variant of `drop` with the partiality of the store primitives made explicit:
`fileSize` (`statSync`) and `unlinkSync` each fail with NotFound on an
absent file; this version propagates such a failure as `none`. It mirrors
the statement order of the source `drop` under the `exists` guard. -/
def dropChecked (st : ContentState) (objectId : String) : Option ContentState :=
  if exists' st objectId then
    match fileSize st objectId with
    | none => none
    | some size =>
      match unlinkSync st.disk objectId with
      | none => none
      | some disk' =>
        some { st with
               disk := disk'
               contentSizeSum := st.contentSizeSum - (size : Int)
               index := dropById st.index objectId }
  else
    some { st with index := dropById st.index objectId }

/-- An authority snapshot: `networking.fetchSupportedDataObjects()` returns a
map from object identifier to its expected size (the `size` field of the
supported data object). The fetch may fail with a transient network error
(modelled by an `Option` argument at the call sites). -/
def Snapshot := List (String × Nat)

/-- Source method `cacheCleanup()`: fetch the authority snapshot (the first statement; a
fetch failure throws before any state is read or mutated), then `drop` every
cached object identifier that the snapshot does not contain. -/
def cacheCleanup (fetch : Option Snapshot) (st : ContentState) : ContentState :=
  match fetch with
  | none => st
  | some supportedObjects =>
    let cachedObjectsIds := getCachedObjectsIds st.index
    cachedObjectsIds.foldl
      (fun s objectId =>
        if (supportedObjects.lookup objectId).isSome then s else drop s objectId)
      st

/-- The per-file accounting statement of `startupInit`'s disk loop:
`this.contentSizeSum += fileSize` (source line: "Add fileSize to
contentSizeSum for each file. If the file ends up dropped - contentSizeSum
will be reduced by this.drop()."). -/
def startupAccountFile (st : ContentState) (objectId : String) : ContentState :=
  { st with contentSizeSum := st.contentSizeSum + ((fileSize st objectId).getD 0 : Int) }

/-- One iteration of `startupInit`'s loop over the data-directory files:
add the file's size to the counter, then drop the file when the authority
snapshot does not list it or lists a different expected size; otherwise
lazily detect and record the MIME type when the index has none.
`sniff objectId` is the result of the external `FileType.fromFile` call. -/
def startupProcessFile (sniff : String → Option String) (supportedObjects : Snapshot)
    (st : ContentState) (objectId : String) : ContentState :=
  let sz := (fileSize st objectId).getD 0
  let st1 := startupAccountFile st objectId
  match supportedObjects.lookup objectId with
  | none => drop st1 objectId
  | some dataObjectSize =>
    if sz ≠ dataObjectSize then
      drop st1 objectId
    else
      match getContentMimeType st1.index objectId with
      | some _ => st1
      | none =>
        { st1 with
          index := setContentMimeType st1.index objectId (detectMimeType (sniff objectId)) }

/-- One iteration of `startupInit`'s loop over the cached object ids:
when the object has no backing file on disk, drop its index entry. -/
def startupDropGhost (st : ContentState) (objectId : String) : ContentState :=
  if exists' st objectId then st
  else { st with index := dropById st.index objectId }

/-- Source method `startupInit()`: fetch the authority snapshot (first statement; a fetch
failure throws before any mutation), read the data-directory listing and
the cached ids, process every file on disk, then drop every cache-index
entry without a backing file. -/
def startupInit (sniff : String → Option String) (fetch : Option Snapshot)
    (st : ContentState) : ContentState :=
  match fetch with
  | none => st
  | some supportedObjects =>
    let dataDirFiles := st.disk.map (·.1)
    let cachedObjectsIds := getCachedObjectsIds st.index
    let st1 := dataDirFiles.foldl (startupProcessFile sniff supportedObjects) st
    cachedObjectsIds.foldl startupDropGhost st1

/-- Source method `evictCacheUntilFreeSpaceReached(targetFreeSpace)`: while
`freeSpace < targetFreeSpace`, ask the cache index for an eviction
candidate; drop it when one is returned, otherwise wait one second and
retry. The candidate policy belongs to the cache-index collaborator and is
a parameter. The source loop has no bound; `fuel` counts loop iterations,
and `none` means the loop was still running (still waiting or evicting)
after `fuel` iterations. -/
def evictCacheUntilFreeSpaceReached
    (candidate : List (String × CacheEntry) → Option String)
    (targetFreeSpace : Int) : Nat → ContentState → Option ContentState
  | 0, st => if freeSpace st < targetFreeSpace then none else some st
  | fuel + 1, st =>
    if freeSpace st < targetFreeSpace then
      match candidate st.index with
      | some evictCandidateId =>
        evictCacheUntilFreeSpaceReached candidate targetFreeSpace fuel
          (drop st evictCandidateId)
      | none => evictCacheUntilFreeSpaceReached candidate targetFreeSpace fuel st
    else some st

/-- The source's `data` listener: accumulate `bytesRecieved` chunk by chunk
and destroy the stream with the "Unexpected content size: Too much data
recieved from source!" error as soon as the count exceeds `expectedSize`.
Returns the final `bytesRecieved` and whether the stream was destroyed. -/
def recvChunks (expectedSize : Nat) : List Nat → Nat → Nat × Bool
  | [], bytesRecieved => (bytesRecieved, false)
  | chunk :: rest, bytesRecieved =>
    let acc := bytesRecieved + chunk
    if acc > expectedSize then (acc, true)
    else recvChunks expectedSize rest acc

/-- Caller-visible outcome of the `pipeline` completion callback:
`committed` (content accepted into the index), `rejected` (the error branch,
which calls `reject(err)` on the returned promise), or `droppedSilently`
(the byte-count-mismatch branch without a pipeline error, which drops the
object and only logs, invoking neither `resolve` nor `reject`). -/
inductive IngestOutcome where
  | committed
  | rejected
  | droppedSilently
deriving Repr, DecidableEq

/-- The `pipeline(dataStream, fileStream, ...)` completion callback of
`handleNewContent`: on error, `drop` the object and reject; otherwise, when
`bytesWritten === bytesRecieved && bytesWritten === expectedSize`, detect
the MIME type, clear the pending-download flag, record the new content with
`expectedSize` and store the MIME type; in every other case `drop` the
object (log only). `sniff` is the external `FileType.fromFile` result for
the fully-written file. -/
def pipelineCallback (sniff : Option String) (objectId : String)
    (expectedSize : Nat) (err : Bool) (bytesWritten bytesRecieved : Nat)
    (st : ContentState) : ContentState × IngestOutcome :=
  if err then
    (drop st objectId, .rejected)
  else if bytesWritten = bytesRecieved ∧ bytesWritten = expectedSize then
    let mimeType := detectMimeType sniff
    let index1 := dropPendingDownload st.index objectId
    let index2 := newContent index1 objectId expectedSize
    let index3 := setContentMimeType index2 objectId mimeType
    ({ st with index := index3 }, .committed)
  else
    (drop st objectId, .droppedSilently)

/-- Source method `handleNewContent(objectId, expectedSize, dataStream)`: evict until
`freeSpace ≥ expectedSize` when needed, reserve `expectedSize` on the
counter, create the write stream (which creates/truncates the destination
file), consume the source (`chunks` are the sizes of the `data` events;
the too-much-data guard may destroy the stream), and run the pipeline
completion callback. `err` models a pipeline failure from causes other
than the guard; `bytesWritten` is the size the file stream reports having
physically written, which is the destination file's size when the callback
runs. `none` means eviction was still waiting after `fuel` iterations. -/
def handleNewContent (candidate : List (String × CacheEntry) → Option String)
    (sniff : Option String) (fuel : Nat) (objectId : String)
    (expectedSize : Nat) (chunks : List Nat) (err : Bool) (bytesWritten : Nat)
    (st : ContentState) : Option (ContentState × IngestOutcome) :=
  let evicted? :=
    if freeSpace st < (expectedSize : Int) then
      evictCacheUntilFreeSpaceReached candidate (expectedSize : Int) fuel st
    else some st
  match evicted? with
  | none => none
  | some st1 =>
    let st2 := { st1 with contentSizeSum := st1.contentSizeSum + (expectedSize : Int) }
    let (bytesRecieved, destroyed) := recvChunks expectedSize chunks 0
    let st3 := { st2 with disk := setFile st2.disk objectId bytesWritten }
    some (pipelineCallback sniff objectId expectedSize (err || destroyed)
      bytesWritten bytesRecieved st3)

/-- Sum of the on-disk byte sizes of all tracked files. -/
def diskSum (disk : List (String × Nat)) : Int :=
  (disk.map (fun p => (p.2 : Int))).sum

/-! ### Association-list lemmas -/

theorem lookup_cons_eq {α : Type} (tl : List (String × α)) (k : String) (v : α) :
    ((k, v) :: tl).lookup k = some v := by
  simp only [List.lookup]
  rw [beq_self_eq_true]

theorem lookup_cons_ne {α : Type} (tl : List (String × α)) (a k : String) (v : α)
    (h : ¬ k = a) : ((k, v) :: tl).lookup a = tl.lookup a := by
  simp only [List.lookup]
  rw [show (a == k) = false by simp [beq_iff_eq]; exact fun e => h e.symm]

theorem lookup_filter_ne {α : Type} (l : List (String × α)) (a : String) :
    (l.filter (fun p => p.1 != a)).lookup a = none := by
  induction l with
  | nil => rfl
  | cons hd tl ih =>
    rcases hd with ⟨k, v⟩
    by_cases h : k = a
    · simp [List.filter_cons, bne_iff_ne, h, ih]
    · simp [List.filter_cons, bne_iff_ne, h, lookup_cons_ne _ a k v h, ih]

theorem filter_ne_idem {α : Type} (l : List (String × α)) (a : String) :
    (l.filter (fun p => p.1 != a)).filter (fun p => p.1 != a)
      = l.filter (fun p => p.1 != a) := by
  induction l with
  | nil => rfl
  | cons hd tl ih =>
    rcases hd with ⟨k, v⟩
    by_cases h : k = a
    · simp [List.filter_cons, bne_iff_ne, h, ih]
    · simp [List.filter_cons, bne_iff_ne, h, ih]

theorem filter_ne_of_lookup_none {α : Type} (l : List (String × α)) (a : String)
    (h : l.lookup a = none) : l.filter (fun p => p.1 != a) = l := by
  induction l with
  | nil => rfl
  | cons hd tl ih =>
    rcases hd with ⟨k, v⟩
    by_cases hh : k = a
    · rw [hh] at h
      rw [lookup_cons_eq] at h
      exact absurd h (by simp)
    · rw [lookup_cons_ne _ a k v hh] at h
      simp [List.filter_cons, bne_iff_ne, hh, ih h]

theorem lookup_none_filter {α : Type} (l : List (String × α)) (a : String)
    (p : String × α → Bool) (h : l.lookup a = none) :
    (l.filter p).lookup a = none := by
  induction l with
  | nil => rfl
  | cons hd tl ih =>
    rcases hd with ⟨k, v⟩
    by_cases hk : k = a
    · rw [hk] at h
      rw [lookup_cons_eq] at h
      exact absurd h (by simp)
    · rw [lookup_cons_ne _ a k v hk] at h
      by_cases hp : p (k, v)
      · simpa [List.filter_cons, hp, lookup_cons_ne _ a k v hk] using ih h
      · simpa [List.filter_cons, hp] using ih h

/-! ### Structure of `drop` -/

theorem drop_index_eq (st : ContentState) (objectId : String) :
    (drop st objectId).index = dropById st.index objectId := by
  unfold drop
  by_cases h : exists' st objectId <;> simp [h]

theorem drop_disk_lookup (st : ContentState) (objectId : String) :
    ((drop st objectId).disk).lookup objectId = none := by
  cases hl : st.disk.lookup objectId with
  | some v =>
    have h : exists' st objectId = true := by simp [exists', hl]
    simp [drop, h, lookup_filter_ne]
  | none =>
    have h : exists' st objectId = false := by simp [exists', hl]
    simp [drop, h, hl]

theorem exists'_drop_self (st : ContentState) (objectId : String) :
    exists' (drop st objectId) objectId = false := by
  simp [exists', drop_disk_lookup]

/-! ### Claim theorems (error handling and frame claims) -/

/-- C5: if the authority snapshot fetch fails, both `startupInit` and
`cacheCleanup` mutate no state at all: the fetch is the first statement of
each method and its failure propagates before any file deletion, counter
update or index mutation, so the resulting state equals the initial one. -/
theorem authority_unavailable_fail_closed (sniff : String → Option String)
    (st : ContentState) :
    startupInit sniff none st = st ∧ cacheCleanup none st = st :=
  ⟨rfl, rfl⟩

/-- C6: `drop` is idempotent: dropping the same identifier twice in a row
yields exactly the end state of dropping it once, and after the first call
the file is gone (`exists'` is false), so the second call performs no disk
and no counter mutation (it takes the warn-only branch). -/
theorem drop_idempotent (st : ContentState) (objectId : String) :
    drop (drop st objectId) objectId = drop st objectId ∧
    exists' (drop st objectId) objectId = false := by
  refine ⟨?_, exists'_drop_self st objectId⟩
  have hex := exists'_drop_self st objectId
  have hcase : ∀ s : ContentState, exists' s objectId = false →
      drop s objectId = { s with index := dropById s.index objectId } := by
    intro s hs
    unfold drop
    simp [hs]
  rw [hcase (drop st objectId) hex, drop_index_eq st objectId]
  have h3 : dropById (dropById st.index objectId) objectId = dropById st.index objectId := by
    unfold dropById
    exact filter_ne_idem st.index objectId
  rw [h3, ← drop_index_eq st objectId]

/-- C10: inside `drop`, the `fileSize` (`statSync`) call and the unlink are
only executed under the `exists(objectId)` guard, so neither can fail with
NotFound: the partiality-explicit `dropChecked` always succeeds and agrees
with `drop`; and in both branches the index entry is dropped via
`dropById`. -/
theorem drop_no_notFound (st : ContentState) (objectId : String) :
    dropChecked st objectId = some (drop st objectId) ∧
    (drop st objectId).index = dropById st.index objectId := by
  refine ⟨?_, drop_index_eq st objectId⟩
  cases hl : st.disk.lookup objectId with
  | some v =>
    have h : exists' st objectId = true := by simp [exists', hl]
    simp [dropChecked, drop, fileSize, unlinkSync, h, hl]
  | none =>
    have h : exists' st objectId = false := by simp [exists', hl]
    simp [dropChecked, drop, h]

theorem startupDropGhost_disk (st : ContentState) (objectId : String) :
    (startupDropGhost st objectId).disk = st.disk := by
  unfold startupDropGhost
  by_cases h : exists' st objectId <;> simp [h]

theorem startupDropGhost_sum (st : ContentState) (objectId : String) :
    (startupDropGhost st objectId).contentSizeSum = st.contentSizeSum := by
  unfold startupDropGhost
  by_cases h : exists' st objectId <;> simp [h]

theorem ghost_fold_disk (ids : List String) (st : ContentState) :
    (ids.foldl startupDropGhost st).disk = st.disk := by
  induction ids generalizing st with
  | nil => rfl
  | cons hd tl ih =>
    rw [List.foldl_cons, ih (startupDropGhost st hd), startupDropGhost_disk]

theorem ghost_fold_sum (ids : List String) (st : ContentState) :
    (ids.foldl startupDropGhost st).contentSizeSum = st.contentSizeSum := by
  induction ids generalizing st with
  | nil => rfl
  | cons hd tl ih =>
    rw [List.foldl_cons, ih (startupDropGhost st hd), startupDropGhost_sum]

theorem ghost_fold_preserves_absent (ids : List String) (st : ContentState)
    (a : String) (h : st.index.lookup a = none) :
    ((ids.foldl startupDropGhost st).index).lookup a = none := by
  induction ids generalizing st with
  | nil => exact h
  | cons hd tl ih =>
    rw [List.foldl_cons]
    refine ih (startupDropGhost st hd) ?_
    unfold startupDropGhost
    by_cases hx : exists' st hd
    · simpa [hx] using h
    · rw [if_neg (by simpa using hx)]
      exact lookup_none_filter st.index a _ h

/-- C7: the ghost-entry phase of startup reconciliation (the loop over the
cached ids) never touches the disk or the used-space counter, and every
processed identifier without a backing file ends up with no index entry
(its entry was dropped via `dropById` only). -/
theorem startup_ghost_index_only (ids : List String) (st : ContentState) :
    (ids.foldl startupDropGhost st).disk = st.disk ∧
    (ids.foldl startupDropGhost st).contentSizeSum = st.contentSizeSum ∧
    ∀ a ∈ ids, exists' st a = false →
      ((ids.foldl startupDropGhost st).index).lookup a = none := by
  refine ⟨ghost_fold_disk ids st, ghost_fold_sum ids st, ?_⟩
  induction ids generalizing st with
  | nil => intro a ha; exact absurd ha (List.not_mem_nil a)
  | cons hd tl ih =>
    intro a ha hex
    rw [List.foldl_cons]
    rcases List.mem_cons.mp ha with heq | hmem
    · subst heq
      refine ghost_fold_preserves_absent tl _ a ?_
      unfold startupDropGhost
      simp [hex, dropById, lookup_filter_ne]
    · refine ih (startupDropGhost st hd) a hmem ?_
      unfold exists' at hex ⊢
      rw [startupDropGhost_disk]
      exact hex

/-- Closed witness for C7 at a concrete state: the index holds a ghost
entry `"g"` with no backing file; after the ghost phase its entry is gone
while disk and counter are untouched. -/
theorem startup_ghost_index_only_witness :
    (([ "g" ].foldl startupDropGhost
        { disk := [("f", 3)],
          index := [("g", { size := some 3, mimeType := none, pending := false })],
          contentSizeSum := 3, storageLimit := 10 }).index).lookup "g" = none :=
  (startup_ghost_index_only ["g"]
      { disk := [("f", 3)],
        index := [("g", { size := some 3, mimeType := none, pending := false })],
        contentSizeSum := 3, storageLimit := 10 }).2.2 "g" (by simp) (by decide)

/-- C8: `detectMimeType` returns the detected media type when the sniffing
library yields one, and the `application/octet-stream` fallback exactly when
detection is inconclusive. The hypothesis records the sniffing library's
contract (a detected type is a nonempty specific type, never the fallback
string itself). -/
theorem detectMimeType_fallback_iff (r : Option String)
    (hr : ∀ m, r = some m → m ≠ "" ∧ m ≠ DEFAULT_CONTENT_TYPE) :
    (detectMimeType r = DEFAULT_CONTENT_TYPE ↔ r = none) ∧
    (∀ m, r = some m → detectMimeType r = m) := by
  cases r with
  | none =>
    refine ⟨by simp [detectMimeType], ?_⟩
    intro m h
    exact absurd h (by simp)
  | some m =>
    obtain ⟨h1, h2⟩ := hr m rfl
    refine ⟨by simp [detectMimeType, h1, h2], ?_⟩
    intro m' hm'
    injection hm' with he
    subst he
    simp [detectMimeType, h1]

/-- Closed witness for C8: sniffing an object detected as `image/png`
returns `image/png`, not the fallback. -/
theorem detectMimeType_fallback_iff_witness :
    detectMimeType (some "image/png") = "image/png" :=
  (detectMimeType_fallback_iff (some "image/png")
      (by
        intro m h
        injection h with he
        subst he
        exact ⟨by decide, by decide⟩)).2
    "image/png" rfl

/-- Initial state of the C2 eviction scenario: storage limit 1000, a single
committed object `"old"` of size 600 on disk that is counted in
`contentSizeSum` and is the only eviction candidate. -/
def evictionScenarioStart : ContentState :=
  { disk := [("old", 600)],
    index := [("old", { size := some 600, mimeType := some "application/octet-stream",
                        pending := false })],
    contentSizeSum := 600, storageLimit := 1000 }

/-- C2: ingesting `"new"` with declared size 500 and a well-formed 500-byte
source into `evictionScenarioStart` triggers eviction (free space is only
400), evicts the 600-byte object `"old"` (the only candidate), ingests and
commits the new object, and ends with `usedSpace = 500`. -/
theorem eviction_scenario_result :
    handleNewContent (fun idx => (idx.map (·.1)).head?) (some "image/png") 2 "new"
        500 [500] false 500 evictionScenarioStart
      = some
          ({ disk := [("new", 500)],
             index := [("new", { size := some 500, mimeType := some "image/png",
                                 pending := false })],
             contentSizeSum := 500, storageLimit := 1000 },
           .committed) ∧
    freeSpace evictionScenarioStart < 500 := by
  exact ⟨rfl, by decide⟩

/-! ### The failed-ingestion path -/

theorem lookup_setFile_self (l : List (String × Nat)) (a : String) (w : Nat) :
    (setFile l a w).lookup a = some w :=
  lookup_cons_eq _ a w

theorem filter_setFile (l : List (String × Nat)) (a : String) (w : Nat) :
    (setFile l a w).filter (fun p => p.1 != a) = l.filter (fun p => p.1 != a) := by
  unfold setFile
  rw [List.filter_cons]
  simp only [bne_self_eq_false, Bool.false_eq_true, if_false]
  exact filter_ne_idem l a

/-- Dropping the object right after its (partial) file of size `w` was
written: the write-stream file is deleted, the counter goes down by the
partial file's size `w` (not by the reserved amount), and the index entry is
dropped. `hfresh` says the identifier had no file before the ingestion. -/
theorem drop_setFile (st : ContentState) (objectId : String) (w : Nat)
    (hfresh : st.disk.lookup objectId = none) :
    drop { st with disk := setFile st.disk objectId w } objectId
      = { st with contentSizeSum := st.contentSizeSum - (w : Int),
                  index := dropById st.index objectId } := by
  have hex : exists' { st with disk := setFile st.disk objectId w } objectId = true := by
    simp [exists', lookup_setFile_self]
  unfold drop
  rw [if_pos hex]
  simp only [fileSize, lookup_setFile_self, Option.getD_some]
  rw [filter_setFile, filter_ne_of_lookup_none st.disk objectId hfresh]

/-- C1 counterexample: ingesting identifier `"x"` with declared size 2 from
a source that emits a single 3-byte chunk (more than declared), where no
bytes reach the disk before the abort (`bytesWritten = 0`). The stream is
destroyed and the write rejected and no file is left behind, but
`usedSpace` ends at 2, not at its pre-reservation value 0: `drop` released
the partial file's size (0), not the reserved `expectedSize` (2), so the
reservation leaks. -/
theorem tooMuchData_reservation_leak :
    handleNewContent (fun _ => none) none 0 "x" 2 [3] false 0
        { disk := [], index := [], contentSizeSum := 0, storageLimit := 100 }
      = some ({ disk := [], index := [], contentSizeSum := 2, storageLimit := 100 },
              .rejected) ∧
    usedSpace { disk := [], index := [], contentSizeSum := 0, storageLimit := 100 } = 0 ∧
    (2 : Int) ≠ 0 :=
  ⟨rfl, rfl, by decide⟩

/-- C1 amended: when the source emits more bytes than `expectedSize`
(`recvChunks` reports the stream destroyed), ingestion of a fresh
identifier rejects with the too-much-data failure and leaves no file behind,
and `usedSpace` ends at its pre-reservation value plus
`expectedSize - bytesWritten`: the counter correction releases the partial
file's size rather than the reserved amount, so it is restored exactly only
when the partial file happens to have exactly `expectedSize` bytes. -/
theorem tooMuchData_abort (candidate : List (String × CacheEntry) → Option String)
    (sniff : Option String) (fuel : Nat) (st : ContentState) (objectId : String)
    (expectedSize : Nat) (chunks : List Nat) (bytesWritten : Nat)
    (hfree : (expectedSize : Int) ≤ freeSpace st)
    (hfresh : st.disk.lookup objectId = none)
    (habort : (recvChunks expectedSize chunks 0).2 = true) :
    handleNewContent candidate sniff fuel objectId expectedSize chunks false
        bytesWritten st
      = some ({ st with
                contentSizeSum :=
                  st.contentSizeSum + (expectedSize : Int) - (bytesWritten : Int),
                index := dropById st.index objectId },
              .rejected) ∧
    ((handleNewContent candidate sniff fuel objectId expectedSize chunks false
        bytesWritten st).map (fun p => p.1.disk.lookup objectId)) = some none := by
  have hmain : handleNewContent candidate sniff fuel objectId expectedSize chunks false
      bytesWritten st
      = some ({ st with
                contentSizeSum :=
                  st.contentSizeSum + (expectedSize : Int) - (bytesWritten : Int),
                index := dropById st.index objectId },
              .rejected) := by
    unfold handleNewContent
    rw [if_neg (not_lt.mpr hfree)]
    rcases hrc : recvChunks expectedSize chunks 0 with ⟨br, d⟩
    rw [hrc] at habort
    have hd : d = true := habort
    subst hd
    simp only [Bool.or_true]
    unfold pipelineCallback
    rw [if_pos rfl]
    rw [drop_setFile { st with contentSizeSum := st.contentSizeSum + (expectedSize : Int) }
      objectId bytesWritten hfresh]
  refine ⟨hmain, ?_⟩
  rw [hmain]
  simp [hfresh]

/-- Closed witness for the amended C1: with 100 free, a fresh id `"x"`,
declared size 2, one 3-byte chunk and 0 bytes flushed, the run rejects,
leaves no file, and `usedSpace` ends at 0 + 2 - 0 = 2. -/
theorem tooMuchData_abort_witness :
    handleNewContent (fun _ => none) none 3 "x" 2 [3] false 0
        { disk := [], index := [], contentSizeSum := 0, storageLimit := 100 }
      = some ({ disk := [], index := [], contentSizeSum := 0 + (2 : Int) - 0,
                storageLimit := 100 }, .rejected) := by
  have h := tooMuchData_abort (fun _ => none) none 3
      { disk := [], index := [], contentSizeSum := 0, storageLimit := 100 }
      "x" 2 [3] 0 (by decide) rfl rfl
  simpa using h.1

/-! ### The completion callback -/

theorem lookup_dropPendingDownload (index : List (String × CacheEntry))
    (objectId : String) :
    (dropPendingDownload index objectId).lookup objectId
      = (index.lookup objectId).map (fun e => { e with pending := false }) := by
  induction index with
  | nil => rfl
  | cons hd tl ih =>
    rcases hd with ⟨k, v⟩
    unfold dropPendingDownload
    by_cases h : k = objectId
    · subst h
      rw [List.map_cons]
      rw [if_pos (by simp)]
      rw [lookup_cons_eq, lookup_cons_eq]
      rfl
    · rw [List.map_cons]
      rw [if_neg (by simp [beq_iff_eq, h])]
      rw [lookup_cons_ne _ objectId k v h, lookup_cons_ne _ objectId k v h]
      exact ih

theorem commit_index_lookup (index : List (String × CacheEntry)) (objectId : String)
    (expectedSize : Nat) (m : String) :
    (setContentMimeType (newContent (dropPendingDownload index objectId) objectId
        expectedSize) objectId m).lookup objectId
      = some { size := some expectedSize, mimeType := some m, pending := false } := by
  cases hl : index.lookup objectId with
  | none =>
    have h1 : (dropPendingDownload index objectId).lookup objectId = none := by
      rw [lookup_dropPendingDownload, hl]
      rfl
    simp only [newContent, setContentMimeType, h1, lookup_cons_eq]
  | some e =>
    have h1 : (dropPendingDownload index objectId).lookup objectId
        = some { e with pending := false } := by
      rw [lookup_dropPendingDownload, hl]
      rfl
    simp only [newContent, setContentMimeType, h1, lookup_cons_eq]

/-- C3 counterexample: a source that delivers only 3 of its declared 5
bytes and then closes, with no pipeline error (`bytesWritten = bytesRecieved
= 3`): the partially-written object is dropped, but the completion outcome
is neither a commit nor a rejection — the callback only logs, so no failure
is reported to the caller, contradicting the claim's "in every other
completion case ... failure is reported to the caller". -/
theorem shortfall_not_reported :
    (handleNewContent (fun _ => none) none 0 "x" 5 [3] false 3
        { disk := [], index := [], contentSizeSum := 0, storageLimit := 100 }).map
        (fun p => p.2)
      = some .droppedSilently ∧
    IngestOutcome.droppedSilently ≠ .committed ∧
    IngestOutcome.droppedSilently ≠ .rejected :=
  ⟨rfl, by decide, by decide⟩

/-- C3 amended: the completion callback commits the object — recording it
in the index with size `expectedSize`, the detected content type and a
cleared pending flag, and leaving the disk untouched — exactly when the
pipeline reported no error and bytes written = bytes received =
`expectedSize`; in every other completion case the partially-written object
is removed via `drop`; but failure is reported to the caller (promise
rejection) exactly when the pipeline reported an error — a count mismatch
without a pipeline error is logged only. -/
theorem ingestion_completion_cases (sniff : Option String) (objectId : String)
    (expectedSize : Nat) (err : Bool) (bytesWritten bytesRecieved : Nat)
    (st : ContentState) :
    ((pipelineCallback sniff objectId expectedSize err bytesWritten bytesRecieved
        st).2 = .committed
      ↔ err = false ∧ bytesWritten = bytesRecieved ∧ bytesWritten = expectedSize) ∧
    ((pipelineCallback sniff objectId expectedSize err bytesWritten bytesRecieved
        st).2 = .committed →
      (pipelineCallback sniff objectId expectedSize err bytesWritten bytesRecieved
          st).1.index.lookup objectId
        = some { size := some expectedSize, mimeType := some (detectMimeType sniff),
                 pending := false } ∧
      (pipelineCallback sniff objectId expectedSize err bytesWritten bytesRecieved
          st).1.disk = st.disk) ∧
    ((pipelineCallback sniff objectId expectedSize err bytesWritten bytesRecieved
        st).2 ≠ .committed →
      (pipelineCallback sniff objectId expectedSize err bytesWritten bytesRecieved
          st).1 = drop st objectId) ∧
    ((pipelineCallback sniff objectId expectedSize err bytesWritten bytesRecieved
        st).2 = .rejected ↔ err = true) := by
  cases err with
  | true =>
    have hred : pipelineCallback sniff objectId expectedSize true bytesWritten
        bytesRecieved st = (drop st objectId, .rejected) := by
      unfold pipelineCallback
      rw [if_pos rfl]
    rw [hred]
    refine ⟨by simp, by intro h; exact absurd h (by simp), fun _ => rfl, by simp⟩
  | false =>
    by_cases hc : bytesWritten = bytesRecieved ∧ bytesWritten = expectedSize
    · have hred : pipelineCallback sniff objectId expectedSize false bytesWritten
          bytesRecieved st
          = ({ st with
               index := setContentMimeType
                 (newContent (dropPendingDownload st.index objectId) objectId
                   expectedSize) objectId (detectMimeType sniff) }, .committed) := by
        unfold pipelineCallback
        rw [if_neg (by simp), if_pos hc]
      rw [hred]
      refine ⟨by simpa using hc, ?_, ?_, by simp⟩
      · intro _
        exact ⟨commit_index_lookup st.index objectId expectedSize _, rfl⟩
      · intro h
        exact absurd rfl h
    · have hred : pipelineCallback sniff objectId expectedSize false bytesWritten
          bytesRecieved st = (drop st objectId, .droppedSilently) := by
        unfold pipelineCallback
        rw [if_neg (by simp), if_neg hc]
      rw [hred]
      refine ⟨?_, by intro h; exact absurd h (by simp), fun _ => rfl, by simp⟩
      constructor
      · intro h
        exact absurd h (by simp)
      · rintro ⟨-, h2, h3⟩
        exact absurd ⟨h2, h3⟩ hc

/-- Closed witness for the amended C3: a clean completion with all three
counts equal to 5 commits the object. -/
theorem ingestion_completion_cases_witness :
    (pipelineCallback none "x" 5 false 5 5
        { disk := [("x", 5)], index := [], contentSizeSum := 5,
          storageLimit := 100 }).2 = .committed :=
  ((ingestion_completion_cases none "x" 5 false 5 5
      { disk := [("x", 5)], index := [], contentSizeSum := 5,
        storageLimit := 100 }).1).mpr ⟨rfl, rfl, rfl⟩

/-! ### Startup reconciliation of mismatched files -/

theorem drop_eq_of_lookup (st : ContentState) (objectId : String) (sz : Nat)
    (h : st.disk.lookup objectId = some sz) :
    drop st objectId
      = { st with disk := st.disk.filter (fun p => p.1 != objectId),
                  contentSizeSum := st.contentSizeSum - (sz : Int),
                  index := dropById st.index objectId } := by
  have hex : exists' st objectId = true := by simp [exists', h]
  unfold drop
  rw [if_pos hex]
  simp [fileSize, h]

/-- C4 counterexample: startup with one file `"f"` of on-disk size 5 whose
authority-expected size is 7. The file is deleted and the final counter
excludes it, but the claim's "its size is never accumulated ... never added
and then subtracted" is false: the loop body first adds the 5 bytes to the
counter (`startupAccountFile`, the `contentSizeSum += fileSize` statement)
and then `drop` subtracts them again. -/
theorem sizeMismatch_counted_then_released :
    usedSpace (startupAccountFile
        { disk := [("f", 5)], index := [], contentSizeSum := 0, storageLimit := 100 }
        "f") = 5 ∧
    startupProcessFile (fun _ => none) [("f", 7)]
        { disk := [("f", 5)], index := [], contentSizeSum := 0, storageLimit := 100 }
        "f"
      = drop (startupAccountFile
          { disk := [("f", 5)], index := [], contentSizeSum := 0, storageLimit := 100 }
          "f") "f" ∧
    usedSpace (startupProcessFile (fun _ => none) [("f", 7)]
        { disk := [("f", 5)], index := [], contentSizeSum := 0, storageLimit := 100 }
        "f") = 0 ∧
    (5 : Int) ≠ 0 :=
  ⟨rfl, rfl, rfl, by decide⟩

/-- C4 amended: during startup reconciliation, a file whose on-disk size
differs from the authority's expected size is deleted, and the final
counter value excludes it (the iteration leaves `contentSizeSum`
unchanged); however the size is transiently accumulated: the iteration
factors as `drop` applied to the state produced by the
`contentSizeSum += fileSize` statement, which momentarily includes the
file's size. -/
theorem startup_size_mismatch (sniff : String → Option String)
    (snap : Snapshot) (st : ContentState) (objectId : String)
    (fileSz expectedSz : Nat)
    (hdisk : st.disk.lookup objectId = some fileSz)
    (hsnap : snap.lookup objectId = some expectedSz)
    (hne : fileSz ≠ expectedSz) :
    startupProcessFile sniff snap st objectId
      = drop (startupAccountFile st objectId) objectId ∧
    usedSpace (startupAccountFile st objectId) = st.contentSizeSum + (fileSz : Int) ∧
    usedSpace (startupProcessFile sniff snap st objectId) = st.contentSizeSum ∧
    exists' (startupProcessFile sniff snap st objectId) objectId = false := by
  have hfs : fileSize st objectId = some fileSz := hdisk
  have hmain : startupProcessFile sniff snap st objectId
      = drop (startupAccountFile st objectId) objectId := by
    unfold startupProcessFile
    rw [hsnap, hfs]
    simp only [Option.getD_some]
    rw [if_pos hne]
  have hacc : startupAccountFile st objectId
      = { st with contentSizeSum := st.contentSizeSum + (fileSz : Int) } := by
    unfold startupAccountFile
    rw [hfs]
    simp only [Option.getD_some]
  have hdropped : drop (startupAccountFile st objectId) objectId
      = { st with disk := st.disk.filter (fun p => p.1 != objectId),
                  contentSizeSum := st.contentSizeSum + (fileSz : Int) - (fileSz : Int),
                  index := dropById st.index objectId } := by
    rw [hacc]
    exact drop_eq_of_lookup _ objectId fileSz hdisk
  refine ⟨hmain, by rw [hacc]; rfl, ?_, ?_⟩
  · rw [hmain, hdropped]
    show st.contentSizeSum + (fileSz : Int) - (fileSz : Int) = st.contentSizeSum
    ring
  · rw [hmain]
    exact exists'_drop_self (startupAccountFile st objectId) objectId

/-- Closed witness for the amended C4 at the concrete mismatch scenario
(on-disk size 5, expected 7): the iteration leaves the counter at 0. -/
theorem startup_size_mismatch_witness :
    usedSpace (startupProcessFile (fun _ => none) [("f", 7)]
        { disk := [("f", 5)], index := [], contentSizeSum := 0, storageLimit := 100 }
        "f") = 0 :=
  (startup_size_mismatch (fun _ => none) [("f", 7)]
      { disk := [("f", 5)], index := [], contentSizeSum := 0, storageLimit := 100 }
      "f" 5 7 rfl rfl (by decide)).2.2.1

/-! ### Re-ingestion and the committed-sum invariant -/

theorem lookup_none_of_notin {α : Type} (l : List (String × α)) (a : String)
    (h : a ∉ l.map Prod.fst) : l.lookup a = none := by
  induction l with
  | nil => rfl
  | cons hd tl ih =>
    rcases hd with ⟨k, v⟩
    simp only [List.map_cons, List.mem_cons] at h
    push_neg at h
    rw [lookup_cons_ne _ a k v (fun e => h.1 e.symm)]
    exact ih h.2

theorem diskSum_cons (k : String) (v : Nat) (tl : List (String × Nat)) :
    diskSum ((k, v) :: tl) = (v : Int) + diskSum tl := by
  unfold diskSum
  rw [List.map_cons, List.sum_cons]

theorem diskSum_split (l : List (String × Nat)) (a : String) (sz : Nat)
    (hnd : (l.map Prod.fst).Nodup) (h : l.lookup a = some sz) :
    diskSum l = (sz : Int) + diskSum (l.filter (fun p => p.1 != a)) := by
  induction l with
  | nil => exact absurd h (by simp [List.lookup])
  | cons hd tl ih =>
    rcases hd with ⟨k, v⟩
    rw [List.map_cons, List.nodup_cons] at hnd
    by_cases hk : k = a
    · subst hk
      rw [lookup_cons_eq] at h
      injection h with hv
      subst hv
      have hnone : tl.lookup k = none := lookup_none_of_notin tl k hnd.1
      rw [List.filter_cons, if_neg (by simp)]
      rw [filter_ne_of_lookup_none tl k hnone]
      exact diskSum_cons k v tl
    · rw [lookup_cons_ne _ a k v hk] at h
      rw [List.filter_cons, if_pos (by simp [bne_iff_ne, hk])]
      rw [diskSum_cons, diskSum_cons, ih hnd.2 h]
      ring

theorem pipelineCallback_commit (sniff : Option String) (objectId : String)
    (expectedSize : Nat) (st : ContentState) :
    pipelineCallback sniff objectId expectedSize false expectedSize expectedSize st
      = ({ st with
           index := setContentMimeType
             (newContent (dropPendingDownload st.index objectId) objectId
               expectedSize) objectId (detectMimeType sniff) }, .committed) := by
  unfold pipelineCallback
  rw [if_neg (by simp), if_pos ⟨rfl, rfl⟩]

/-- C9: `handleNewContent` checks nothing about the identifier's prior
presence; its reservation adds `expectedSize` unconditionally. For an
identifier already on disk with its size counted (`contentSizeSum` equals
the on-disk sum), a second successful ingestion of the same identifier and
size commits, the on-disk sum is unchanged (the file is just replaced), and
`usedSpace` ends strictly greater than the sum of on-disk sizes: ingestion
does not preserve the committed-sum invariant under this precondition. -/
theorem reingest_breaks_sum_invariant
    (candidate : List (String × CacheEntry) → Option String) (sniff : Option String)
    (fuel : Nat) (st : ContentState) (objectId : String) (expectedSize : Nat)
    (chunks : List Nat)
    (hnd : (st.disk.map Prod.fst).Nodup)
    (hdisk : st.disk.lookup objectId = some expectedSize)
    (hsum : st.contentSizeSum = diskSum st.disk)
    (hfree : (expectedSize : Int) ≤ freeSpace st)
    (hpos : 0 < expectedSize)
    (hrecv : recvChunks expectedSize chunks 0 = (expectedSize, false)) :
    handleNewContent candidate sniff fuel objectId expectedSize chunks false
        expectedSize st
      = some ({ st with
                disk := setFile st.disk objectId expectedSize,
                contentSizeSum := st.contentSizeSum + (expectedSize : Int),
                index := setContentMimeType
                  (newContent (dropPendingDownload st.index objectId) objectId
                    expectedSize) objectId (detectMimeType sniff) },
              .committed) ∧
    diskSum (setFile st.disk objectId expectedSize) = diskSum st.disk ∧
    diskSum (setFile st.disk objectId expectedSize)
      < st.contentSizeSum + (expectedSize : Int) := by
  have hsetsum : diskSum (setFile st.disk objectId expectedSize) = diskSum st.disk := by
    have hsplit := diskSum_split st.disk objectId expectedSize hnd hdisk
    unfold setFile
    rw [diskSum_cons, ← hsplit]
  refine ⟨?_, hsetsum, ?_⟩
  · unfold handleNewContent
    rw [if_neg (not_lt.mpr hfree), hrecv]
    simp only [Bool.or_false]
    rw [pipelineCallback_commit]
  · rw [hsetsum, ← hsum]
    have : (0 : Int) < (expectedSize : Int) := by exact_mod_cast hpos
    linarith

/-- Closed witness for C9: object `"x"` of size 4 is on disk and counted
(`usedSpace = 4 =` on-disk sum); re-ingesting `"x"` with size 4 succeeds
and leaves the on-disk sum (4) strictly below the new counter (8). -/
theorem reingest_breaks_sum_invariant_witness :
    diskSum (setFile [("x", 4)] "x" 4) < (4 : Int) + ((4 : Nat) : Int) :=
  (reingest_breaks_sum_invariant (fun _ => none) none 0
      { disk := [("x", 4)], index := [], contentSizeSum := 4, storageLimit := 100 }
      "x" 4 [4] (by simp) rfl (by decide) (by decide) (by decide) rfl).2.2

end ContentServiceModel
